import Mathlib

/-!
# Verification of the DPlayer-enhanced hotkey subsystem

A shallow embedding of `src/js/hotkey.js`: the key-event dispatch engine of
the enhanced DPlayer fork.  Keyboard events, the player state read by the
handlers, and the DOM active element are modelled as structures; each handler
is a pure function from an event and the observable state to the list of
side effects it performs on the host player (seeks, speed changes, volume
writes, notices, fullscreen calls, screenshot downloads).  JavaScript numbers
are modelled as rationals; `Math.floor`, `Math.round`, the `%` operator and
`String.prototype.padStart` are given their exact semantics on ℚ.
-/

namespace DPlayerHotkey

/-- Fullscreen scope: `browser` (native) or `web` (in-page). -/
inductive FsScope where
  | browser
  | web
deriving DecidableEq, Repr

/-- One observable side effect performed by a handler on the host player. -/
inductive Effect where
  /-- `event.preventDefault()` — suppress default browser handling. -/
  | preventDefault
  /-- `player.toggle()` — toggle play/pause. -/
  | toggle
  /-- `player.seek(t)` / `player.seek(t, true)`; the flag records the
      `userInitiated` second argument (`false` when absent). -/
  | seek (t : ℚ) (userInitiated : Bool)
  /-- `player.controller.setAutoHide()`. -/
  | setAutoHide
  /-- `player.volume(v)` with a new value. -/
  | volumeSet (v : ℚ)
  /-- `player.speed(r)`. -/
  | speed (r : ℚ)
  /-- `player.notice(msg)`. -/
  | notice (msg : String)
  /-- write to `video.muted`. -/
  | setMuted (b : Bool)
  /-- `player.fullScreen.request(scope)`. -/
  | fsRequest (s : FsScope)
  /-- `player.fullScreen.cancel(scope)`. -/
  | fsCancel (s : FsScope)
  /-- client-side download of a file with the given name. -/
  | screenshot (filename : String)
deriving DecidableEq, Repr

/-- The fields of `player.video` read by the hotkey handlers.
`duration` is `none` when unknown (`NaN`/unset in the DOM). -/
structure VideoState where
  currentTime : ℚ
  duration : Option ℚ
  playbackRate : ℚ
  muted : Bool
deriving DecidableEq, Repr

/-- The observable state of the host player at the moment an event fires. -/
structure PlayerState where
  video : VideoState
  /-- current value returned by `player.volume()` -/
  volume : ℚ
  /-- `player.options.live` -/
  live : Bool
  /-- `player.options.hotkey` -/
  hotkey : Bool
  /-- `player.focus` -/
  focus : Bool
  /-- `player.fullScreen.isFullScreen('web')` -/
  fsWeb : Bool
  /-- `player.fullScreen.isFullScreen('browser')` -/
  fsBrowser : Bool
deriving DecidableEq, Repr

/-- A keyboard event, as read by the handlers. -/
structure KeyEvent where
  key : String
  keyCode : Nat
  ctrlKey : Bool
  shiftKey : Bool
  /-- `event.location`; `3` is the numeric keypad. -/
  location : Nat
deriving DecidableEq, Repr

/-- The `document.activeElement` fields read by the focus/editable guard. -/
structure ActiveElement where
  tagName : String
  /-- `getAttribute('contenteditable')`: `none` when the attribute is absent. -/
  contenteditable : Option String
deriving DecidableEq, Repr

/-- JavaScript `String.prototype.toLowerCase` (the keys handled are ASCII). -/
def jsToLower (s : String) : String :=
  String.mk (s.data.map Char.toLower)

/-- JavaScript `String.prototype.toUpperCase` (the tags compared are ASCII). -/
def jsToUpper (s : String) : String :=
  String.mk (s.data.map Char.toUpper)

/-- JavaScript `Math.trunc` on an exact rational. -/
def jsTrunc (q : ℚ) : ℤ :=
  if 0 ≤ q then ⌊q⌋ else ⌈q⌉

/-- JavaScript remainder `a % b` (sign of the dividend) on exact rationals. -/
def jsMod (a b : ℚ) : ℚ :=
  a - b * (jsTrunc (a / b) : ℚ)

/-- JavaScript `Math.round` (half toward +∞) on an exact rational. -/
def jsRound (q : ℚ) : ℤ :=
  ⌊q + 1 / 2⌋

/-- `String.prototype.padStart(2, '0')`. -/
def padStart2 (s : String) : String :=
  if s.length < 2 then String.mk (List.replicate (2 - s.length) '0') ++ s else s

/-- The `HH-MM-SS` timestamp computed in `takeScreenshot` from
`video.currentTime`:
`h = Math.floor(time / 3600)`, `m = Math.floor((time % 3600) / 60)`,
`s = Math.floor(time % 60)`, each `String(...).padStart(2, '0')`. -/
def screenshotTimestamp (time : ℚ) : String :=
  let h := padStart2 (toString ⌊time / 3600⌋)
  let m := padStart2 (toString ⌊jsMod time 3600 / 60⌋)
  let s := padStart2 (toString ⌊jsMod time 60⌋)
  h ++ "-" ++ m ++ "-" ++ s

/-- `takeScreenshot()`: downloads `screenshot_${timestamp}.png` and emits the
notice `Screenshot: ${timestamp}` (canvas drawing and blob encoding carry no
decision logic and are not modelled beyond the two observable effects). -/
def takeScreenshot (p : PlayerState) : List Effect :=
  let timestamp := screenshotTimestamp p.video.currentTime
  [.screenshot ("screenshot_" ++ timestamp ++ ".png"),
   .notice ("Screenshot: " ++ timestamp)]

/-- The new playback rate computed by `changeSpeed(delta)`:
`newRate = playbackRate + delta`, clamped by
`Math.max(0.25, Math.min(2.0, newRate))`, then
`Math.round(newRate * 100) / 100`. -/
def changeSpeedRate (rate delta : ℚ) : ℚ :=
  let newRate := rate + delta
  let newRate := max (1 / 4) (min 2 newRate)
  (jsRound (newRate * 100) : ℚ) / 100

/-- `changeSpeed(delta)`: one call `player.speed(newRate)`, unconditionally. -/
def changeSpeed (p : PlayerState) (delta : ℚ) : List Effect :=
  [.speed (changeSpeedRate p.video.playbackRate delta)]

/-- `resetSpeed()`: `player.speed(1.0)`. -/
def resetSpeed : List Effect :=
  [.speed 1]

/-- `seekToPercent(percent)`: guarded by the truthiness of `video.duration`
(`none` and `0` are falsy); seeks to `(percent / 100) * duration` with the
`userInitiated` flag and emits `Seek: ${percent}%`. -/
def seekToPercent (p : PlayerState) (percent : ℕ) : List Effect :=
  match p.video.duration with
  | none => []
  | some d =>
    if d = 0 then []
    else
      [.seek ((percent : ℚ) / 100 * d) true,
       .notice ("Seek: " ++ toString percent ++ "%")]

/-- The guard in `doHotKey` that skips events while the user is typing:
`tagName.toUpperCase()` is `INPUT` or `TEXTAREA`, or the `contenteditable`
attribute is exactly `''` or `'true'`. -/
def isTypingTarget (a : ActiveElement) : Bool :=
  let tag := jsToUpper a.tagName
  let editable := a.contenteditable
  tag = "INPUT" || tag = "TEXTAREA" || editable = some "" || editable = some "true"

/-- The value `parseInt(lowerKey)` for the ten digit-key cases. -/
def digitVal (s : String) : ℕ :=
  if s = "0" then 0
  else if s = "1" then 1
  else if s = "2" then 2
  else if s = "3" then 3
  else if s = "4" then 4
  else if s = "5" then 5
  else if s = "6" then 6
  else if s = "7" then 7
  else if s = "8" then 8
  else 9

/-- Whether `lowerKey` is one of the ten digit cases of the letter switch. -/
def isDigitKey (s : String) : Bool :=
  s = "0" || s = "1" || s = "2" || s = "3" || s = "4" ||
  s = "5" || s = "6" || s = "7" || s = "8" || s = "9"

/-- `handleLetterKeys(event, key)`: the fallback switch on
`key.toLowerCase()`. -/
def handleLetterKeys (key : String) (p : PlayerState) : List Effect :=
  let lowerKey := jsToLower key
  if lowerKey = "a" then
    Effect.preventDefault ::
      (if p.live then []
       else
         (if p.video.currentTime ≥ 5 then
            [Effect.seek (p.video.currentTime - 5) false]
          else [Effect.seek 0 false]) ++ [Effect.setAutoHide])
  else if lowerKey = "d" then
    Effect.preventDefault ::
      (if p.live then []
       else
         (match p.video.duration with
          | none => []
          | some d =>
            if d ≠ 0 ∧ p.video.currentTime + 5 < d then
              [Effect.seek (p.video.currentTime + 5) false]
            else if d ≠ 0 then [Effect.seek (d - 1) false]
            else []) ++ [Effect.setAutoHide])
  else if lowerKey = "f" then
    if p.fsBrowser then [.preventDefault, .fsCancel .browser]
    else [.preventDefault, .fsRequest .browser]
  else if lowerKey = "w" then
    if p.fsWeb then [.preventDefault, .fsCancel .web]
    else [.preventDefault, .fsRequest .web]
  else if lowerKey = "m" then
    if p.video.muted then [.preventDefault, .setMuted false, .notice "Unmuted"]
    else [.preventDefault, .setMuted true, .notice "Muted"]
  else if lowerKey = "+" ∨ lowerKey = "=" then
    Effect.preventDefault :: changeSpeed p (5 / 100)
  else if lowerKey = "-" then
    Effect.preventDefault :: changeSpeed p (-(5 / 100))
  else if isDigitKey lowerKey then
    Effect.preventDefault ::
      (if p.live then [] else seekToPercent p (digitVal lowerKey * 10))
  else []

/-- `doHotKey(e)`: the gated dispatcher.  Skips everything when the player
lacks focus or the active element is a typing target; then tries the modifier
rules (Ctrl+X, Ctrl+Z, Ctrl+Shift, Shift+S) in source order, then the
key-code switch (space, arrows, numpad Enter), falling through to
`handleLetterKeys` only in the `default` case. -/
def doHotKey (e : KeyEvent) (a : ActiveElement) (p : PlayerState) : List Effect :=
  if p.focus then
    if isTypingTarget a then []
    else
      let key := e.key
      let keyCode := e.keyCode
      if e.ctrlKey = true ∧ jsToLower key = "x" then
        Effect.preventDefault :: changeSpeed p (5 / 100)
      else if e.ctrlKey = true ∧ jsToLower key = "z" then
        Effect.preventDefault :: changeSpeed p (-(5 / 100))
      else if e.ctrlKey = true ∧ e.shiftKey = true then
        Effect.preventDefault :: resetSpeed
      else if e.shiftKey = true ∧ jsToLower key = "s" then
        Effect.preventDefault :: takeScreenshot p
      else if keyCode = 32 then
        [.preventDefault, .toggle]
      else if keyCode = 37 then
        Effect.preventDefault ::
          (if p.live then []
           else [Effect.seek (p.video.currentTime - 5) false, Effect.setAutoHide])
      else if keyCode = 39 then
        Effect.preventDefault ::
          (if p.live then []
           else [Effect.seek (p.video.currentTime + 5) false, Effect.setAutoHide])
      else if keyCode = 38 then
        [.preventDefault, .volumeSet (p.volume + 1 / 10)]
      else if keyCode = 40 then
        [.preventDefault, .volumeSet (p.volume - 1 / 10)]
      else if keyCode = 13 then
        if e.location = 3 then Effect.preventDefault :: resetSpeed else []
      else handleLetterKeys key p
  else []

/-- `cancelFullScreen(e)`: the always-registered Escape watcher.  On key code
27, exits web fullscreen when active; touches nothing else. -/
def cancelFullScreen (e : KeyEvent) (p : PlayerState) : List Effect :=
  if e.keyCode = 27 then
    if p.fsWeb then [.fsCancel .web] else []
  else []

/-- The two keydown listeners the constructor can register. -/
inductive Listener where
  | hotkeyKeydown
  | escapeKeydown
deriving DecidableEq, Repr

/-- The listeners registered by the constructor: the `doHotKey` path only
when `options.hotkey` is set, the Escape watcher always. -/
def registeredListeners (hotkeyOption : Bool) : List Listener :=
  (if hotkeyOption then [Listener.hotkeyKeydown] else []) ++ [Listener.escapeKeydown]

/-- Whether an effect is a call to `player.seek`. -/
def Effect.isSeek : Effect → Bool
  | .seek _ _ => true
  | _ => false

/-- `true` iff the effect list contains no `player.seek` call. -/
def seekFree (l : List Effect) : Bool :=
  l.all fun ef => !ef.isSeek

/-- The times passed to `player.seek` in an effect list, in order. -/
def seekTimes (l : List Effect) : List ℚ :=
  l.filterMap fun ef =>
    match ef with
    | .seek t _ => some t
    | _ => none

/-- `true` iff every listed seek time is nonnegative. -/
def allNonneg (l : List ℚ) : Bool :=
  l.all fun t => 0 ≤ t

/-- `true` iff every listed seek time is at most `b`. -/
def allLe (l : List ℚ) (b : ℚ) : Bool :=
  l.all fun t => t ≤ b

/-- `true` iff the effect list requests or cancels browser-scope fullscreen. -/
def touchesBrowserFs (l : List Effect) : Bool :=
  l.any fun ef => ef = .fsRequest .browser || ef = .fsCancel .browser

/-- Clamp `x` into `[lo, hi]`, written the way the spec words it. -/
def clampQ (lo hi x : ℚ) : ℚ :=
  max lo (min hi x)

/-- Rounding to two decimal places, written the way the spec words it. -/
def roundTo2 (q : ℚ) : ℚ :=
  (jsRound (q * 100) : ℚ) / 100

/-- The ChangeSpeed policy as the spec words it:
`clamp(currentRate + delta, 0.25, 2.0)`, rounded to 2 decimals. -/
def changeSpeedSpec (rate delta : ℚ) : ℚ :=
  roundTo2 (clampQ (1 / 4) 2 (rate + delta))

/-- A generic non-typing active element for concrete scenarios. -/
def sampleActive : ActiveElement :=
  ⟨"DIV", none⟩

section SpeedPolicy

/-- Clamping to `[0.25, 2]` and then rounding half-up at the second decimal
stays inside `[0.25, 2]`. -/
theorem changeSpeedRate_bounds (rate delta : ℚ) :
    1 / 4 ≤ changeSpeedRate rate delta ∧ changeSpeedRate rate delta ≤ 2 := by
  unfold changeSpeedRate jsRound
  set c := max (1 / 4) (min 2 (rate + delta)) with hc
  have h1 : (1 / 4 : ℚ) ≤ c := le_max_left _ _
  have h2 : c ≤ 2 := max_le (by norm_num) (min_le_left _ _)
  constructor
  · have hfl : (25 : ℤ) ≤ ⌊c * 100 + 1 / 2⌋ := by
      rw [Int.le_floor]
      push_cast
      linarith
    have hq : (25 : ℚ) ≤ (⌊c * 100 + 1 / 2⌋ : ℚ) := by exact_mod_cast hfl
    linarith
  · have hfl : ⌊c * 100 + 1 / 2⌋ ≤ ⌊(401 / 2 : ℚ)⌋ := Int.floor_mono (by linarith)
    have h401 : (⌊(401 / 2 : ℚ)⌋ : ℤ) = 200 := by norm_num
    have hq : (⌊c * 100 + 1 / 2⌋ : ℚ) ≤ 200 := by
      rw [h401] at hfl
      exact_mod_cast hfl
    linarith

/-- C4: for every initial playbackRate `r` and every delta `d`,
`changeSpeed(d)` computes exactly the spec's `clamp(r + d, 0.25, 2.0)`
rounded to 2 decimal places and applies it unconditionally as the single
`player.speed` call; the result always lies in `[0.25, 2.0]`, and applying
`ChangeSpeed(+0.05)` at rate `2.0` leaves the rate at `2.0`. -/
theorem changeSpeed_clamps_rounds (r d : ℚ) (p : PlayerState) (delta : ℚ) :
    changeSpeedRate r d = changeSpeedSpec r d ∧
    1 / 4 ≤ changeSpeedRate r d ∧ changeSpeedRate r d ≤ 2 ∧
    changeSpeedRate 2 (5 / 100) = 2 ∧
    changeSpeed p delta = [Effect.speed (changeSpeedRate p.video.playbackRate delta)] := by
  refine ⟨rfl, (changeSpeedRate_bounds r d).1, (changeSpeedRate_bounds r d).2, ?_, rfl⟩
  norm_num [changeSpeedRate, jsRound]

end SpeedPolicy

section EscapeWatcher

/-- C6: on every keydown with key code 27 the Escape watcher exits web
fullscreen exactly when the player is in web fullscreen, regardless of the
player state (focus included — the watcher never consults the focus/editable
guard); it never requests or cancels browser-scope fullscreen; and the
watcher's listener is registered whether or not the hotkey option is set. -/
theorem escape_exits_web_only (e : KeyEvent) (p : PlayerState)
    (h27 : e.keyCode = 27) :
    (p.fsWeb = true → cancelFullScreen e p = [Effect.fsCancel FsScope.web]) ∧
    (p.fsWeb = false → cancelFullScreen e p = []) ∧
    touchesBrowserFs (cancelFullScreen e p) = false ∧
    Listener.escapeKeydown ∈ registeredListeners true ∧
    Listener.escapeKeydown ∈ registeredListeners false := by
  refine ⟨fun hw => ?_, fun hw => ?_, ?_, ?_, ?_⟩
  · simp [cancelFullScreen, h27, hw]
  · simp [cancelFullScreen, h27, hw]
  · unfold cancelFullScreen touchesBrowserFs
    split_ifs <;> simp
  · simp [registeredListeners]
  · simp [registeredListeners]

theorem escape_exits_web_only_witness :
    cancelFullScreen ⟨"Escape", 27, false, false, 0⟩
      ⟨⟨0, some 100, 1, false⟩, 1 / 2, false, true, false, true, false⟩ =
      [Effect.fsCancel FsScope.web] :=
  (escape_exits_web_only ⟨"Escape", 27, false, false, 0⟩
    ⟨⟨0, some 100, 1, false⟩, 1 / 2, false, true, false, true, false⟩ rfl).1 rfl

end EscapeWatcher

section Guard

/-- C7: when the player lacks focus, or the active element is an INPUT or
TEXTAREA, or its `contenteditable` attribute is exactly `""` or `"true"`,
the dispatcher fires no rule at all — no effect is produced, so no player
mutation happens and the event's default behaviour is not suppressed — while
the Escape watcher still exits web fullscreen on key code 27. -/
theorem typing_guard_blocks_dispatch (e : KeyEvent) (a : ActiveElement)
    (p : PlayerState)
    (h : p.focus = false ∨ jsToUpper a.tagName = "INPUT" ∨
      jsToUpper a.tagName = "TEXTAREA" ∨ a.contenteditable = some "" ∨
      a.contenteditable = some "true") :
    doHotKey e a p = [] ∧
    (e.keyCode = 27 → p.fsWeb = true →
      cancelFullScreen e p = [Effect.fsCancel FsScope.web]) := by
  constructor
  · rcases h with h | h | h | h | h
    · simp [doHotKey, h]
    all_goals
      have hg : isTypingTarget a = true := by simp [isTypingTarget, h]
      simp [doHotKey, hg]
  · intro h27 hw
    simp [cancelFullScreen, h27, hw]

theorem typing_guard_blocks_dispatch_witness :
    doHotKey ⟨"d", 68, false, false, 0⟩ ⟨"INPUT", none⟩
      ⟨⟨3, some 100, 1, false⟩, 1 / 2, false, true, true, true, false⟩ = [] :=
  (typing_guard_blocks_dispatch ⟨"d", 68, false, false, 0⟩ ⟨"INPUT", none⟩
    ⟨⟨3, some 100, 1, false⟩, 1 / 2, false, true, true, true, false⟩
    (Or.inr (Or.inl (by decide)))).1

end Guard

section LiveMode

/-- Reduction helper: an `if` whose condition has been rewritten to
`true = true` takes its then-branch. -/
theorem ite_true_true {α : Sort _} (a b : α) :
    (if true = true then a else b) = a :=
  if_pos rfl

/-- `seekFree` holds for an `if` once it holds for both branches. -/
theorem seekFree_ite (c : Prop) [Decidable c] {l1 l2 : List Effect}
    (h1 : seekFree l1 = true) (h2 : seekFree l2 = true) :
    seekFree (if c then l1 else l2) = true := by
  by_cases h : c
  · rwa [if_pos h]
  · rwa [if_neg h]

/-- Under `live`, the letter-key fallback never calls `player.seek`. -/
theorem handleLetterKeys_live_seekFree (key : String) (p : PlayerState)
    (h : p.live = true) :
    seekFree (handleLetterKeys key p) = true := by
  unfold handleLetterKeys
  rw [h]
  simp only [ite_true_true]
  split_ifs <;> rfl

/-- C2: while `options.live` is true, no keyboard event makes either handler
call `player.seek` — every effect list produced is seek-free, whatever the
key, key code, modifiers, active element, or remaining player state. -/
theorem live_blocks_all_seeks (e : KeyEvent) (a : ActiveElement)
    (p : PlayerState) (h : p.live = true) :
    seekFree (doHotKey e a p) = true ∧
    seekFree (cancelFullScreen e p) = true := by
  constructor
  · unfold doHotKey
    rw [h]
    rw [ite_true_true, ite_true_true]
    refine seekFree_ite _ ?_ rfl
    refine seekFree_ite _ rfl ?_
    refine seekFree_ite _ rfl ?_
    refine seekFree_ite _ rfl ?_
    refine seekFree_ite _ rfl ?_
    refine seekFree_ite _ rfl ?_
    refine seekFree_ite _ rfl ?_
    refine seekFree_ite _ rfl ?_
    refine seekFree_ite _ rfl ?_
    refine seekFree_ite _ rfl ?_
    refine seekFree_ite _ rfl ?_
    refine seekFree_ite _ (seekFree_ite _ rfl rfl) ?_
    exact handleLetterKeys_live_seekFree _ _ h
  · unfold cancelFullScreen
    split_ifs <;> rfl

theorem live_blocks_all_seeks_witness :
    seekFree (doHotKey ⟨"ArrowLeft", 37, false, false, 0⟩ sampleActive
      ⟨⟨30, some 100, 1, false⟩, 1 / 2, true, true, true, false, false⟩) = true ∧
    seekFree (cancelFullScreen ⟨"ArrowLeft", 37, false, false, 0⟩
      ⟨⟨30, some 100, 1, false⟩, 1 / 2, true, true, true, false, false⟩) = true :=
  live_blocks_all_seeks ⟨"ArrowLeft", 37, false, false, 0⟩ sampleActive
    ⟨⟨30, some 100, 1, false⟩, 1 / 2, true, true, true, false, false⟩ rfl

end LiveMode

section VolumeKeys

/-- C9: an eligible plain up-arrow (key code 38) or down-arrow (key code 40)
event, with Ctrl not held, makes the dispatcher call `player.volume` with
exactly `volume + 0.1` resp. `volume − 0.1`; the value is passed unclamped,
for every current volume. -/
theorem volume_unclamped_delta (e : KeyEvent) (a : ActiveElement)
    (p : PlayerState) (hfoc : p.focus = true)
    (hguard : isTypingTarget a = false) (hctrl : e.ctrlKey = false) :
    (e.keyCode = 38 → e.key = "ArrowUp" →
      doHotKey e a p = [Effect.preventDefault, Effect.volumeSet (p.volume + 1 / 10)]) ∧
    (e.keyCode = 40 → e.key = "ArrowDown" →
      doHotKey e a p = [Effect.preventDefault, Effect.volumeSet (p.volume - 1 / 10)]) := by
  have hup : jsToLower "ArrowUp" = "arrowup" := by decide
  have hdn : jsToLower "ArrowDown" = "arrowdown" := by decide
  constructor
  · intro hcode hkey
    simp [doHotKey, hfoc, hguard, hctrl, hcode, hkey, hup]
  · intro hcode hkey
    simp [doHotKey, hfoc, hguard, hctrl, hcode, hkey, hdn]

theorem volume_unclamped_delta_witness :
    doHotKey ⟨"ArrowUp", 38, false, false, 0⟩ sampleActive
      ⟨⟨30, some 100, 1, false⟩, 1, false, true, true, false, false⟩ =
      [Effect.preventDefault, Effect.volumeSet ((1 : ℚ) + 1 / 10)] :=
  (volume_unclamped_delta ⟨"ArrowUp", 38, false, false, 0⟩ sampleActive
    ⟨⟨30, some 100, 1, false⟩, 1, false, true, true, false, false⟩
    rfl (by decide) rfl).1 rfl rfl

end VolumeKeys

section EnterKey

/-- C10: an eligible plain Enter keydown (key code 13) whose `location` is
not the numeric keypad produces no effect at all — no action, no
`preventDefault` — for any key label; the key-code switch consumes Enter
without reaching the letter-key fallback, which by itself would still produce
effects (shown for the label `"d"`). -/
theorem main_enter_noop (e : KeyEvent) (a : ActiveElement) (p : PlayerState)
    (hfoc : p.focus = true) (hguard : isTypingTarget a = false)
    (hctrl : e.ctrlKey = false) (hshift : e.shiftKey = false)
    (hcode : e.keyCode = 13) (hloc : e.location ≠ 3) :
    doHotKey e a p = [] ∧ handleLetterKeys "d" p ≠ [] := by
  constructor
  · simp [doHotKey, hfoc, hguard, hctrl, hshift, hcode, hloc]
  · have hd : jsToLower "d" = "d" := by decide
    simp [handleLetterKeys, hd]

theorem main_enter_noop_witness :
    doHotKey ⟨"Enter", 13, false, false, 0⟩ sampleActive
      ⟨⟨30, some 100, 1, false⟩, 1 / 2, false, true, true, false, false⟩ = [] ∧
    handleLetterKeys "d"
      ⟨⟨30, some 100, 1, false⟩, 1 / 2, false, true, true, false, false⟩ ≠ [] :=
  main_enter_noop ⟨"Enter", 13, false, false, 0⟩ sampleActive
    ⟨⟨30, some 100, 1, false⟩, 1 / 2, false, true, true, false, false⟩
    rfl (by decide) rfl rfl rfl (by decide)

end EnterKey

section ModifierPrecedence

/-- A focused, non-live player at playbackRate 1, currentTime 3,
duration 100, used in concrete scenarios. -/
def samplePlayer : PlayerState :=
  ⟨⟨3, some 100, 1, false⟩, 1 / 2, false, true, true, false, false⟩

/-- C1 counterexample: Ctrl+Shift+X on an eligible event at playbackRate 1
dispatches ChangeSpeed(+0.05) — the single `player.speed` call carries
1.05, not the 1.0 that ResetSpeed would carry — because the Ctrl+X rule is
checked before the Ctrl+Shift rule. -/
theorem ctrlShiftX_not_resetSpeed :
    doHotKey ⟨"x", 88, true, true, 0⟩ sampleActive samplePlayer =
      [Effect.preventDefault, Effect.speed (21 / 20)] ∧ (21 / 20 : ℚ) ≠ 1 := by
  constructor
  · have hg : isTypingTarget sampleActive = false := by decide
    have hx : jsToLower "x" = "x" := by decide
    have hr : changeSpeedRate 1 (5 / 100) = 21 / 20 := by
      norm_num [changeSpeedRate, jsRound]
    simp [doHotKey, hg, hx, changeSpeed, samplePlayer, hr]
  · norm_num

/-- C1 (amended): for every eligible event with Ctrl held, the first three
modifier rules apply strictly in source order — key `x` (case-insensitive)
fires ChangeSpeed(+0.05) even when Shift is also held, key `z` fires
ChangeSpeed(−0.05), and only a Ctrl+Shift combination whose key is neither
`x` nor `z` fires ResetSpeed (speed set to exactly 1.0). -/
theorem ctrlX_precedes_ctrlShift (e : KeyEvent) (a : ActiveElement)
    (p : PlayerState) (hfoc : p.focus = true)
    (hguard : isTypingTarget a = false) (hctrl : e.ctrlKey = true) :
    (jsToLower e.key = "x" →
      doHotKey e a p = [Effect.preventDefault,
        Effect.speed (changeSpeedRate p.video.playbackRate (5 / 100))]) ∧
    (jsToLower e.key = "z" →
      doHotKey e a p = [Effect.preventDefault,
        Effect.speed (changeSpeedRate p.video.playbackRate (-(5 / 100)))]) ∧
    (e.shiftKey = true → jsToLower e.key ≠ "x" → jsToLower e.key ≠ "z" →
      doHotKey e a p = [Effect.preventDefault, Effect.speed 1]) := by
  refine ⟨fun hx => ?_, fun hz => ?_, fun hs hnx hnz => ?_⟩
  · simp [doHotKey, hfoc, hguard, hctrl, hx, changeSpeed]
  · simp [doHotKey, hfoc, hguard, hctrl, hz, changeSpeed]
  · simp [doHotKey, hfoc, hguard, hctrl, hs, hnx, hnz, resetSpeed]

theorem ctrlX_precedes_ctrlShift_witness :
    doHotKey ⟨"X", 88, true, true, 0⟩ sampleActive samplePlayer =
      [Effect.preventDefault,
       Effect.speed (changeSpeedRate samplePlayer.video.playbackRate (5 / 100))] :=
  (ctrlX_precedes_ctrlShift ⟨"X", 88, true, true, 0⟩ sampleActive samplePlayer
    rfl (by decide) rfl).1 (by decide)

end ModifierPrecedence

section SeekClamping

/-- The `'a'` case of the letter switch, by itself. -/
theorem handleLetterKeys_key_a (p : PlayerState) :
    handleLetterKeys "a" p = Effect.preventDefault ::
      (if p.live then []
       else
         (if p.video.currentTime ≥ 5 then
            [Effect.seek (p.video.currentTime - 5) false]
          else [Effect.seek 0 false]) ++ [Effect.setAutoHide]) := by
  unfold handleLetterKeys
  rw [show jsToLower "a" = "a" from by decide]
  exact if_pos rfl

/-- The `'d'` case of the letter switch, by itself. -/
theorem handleLetterKeys_key_d (p : PlayerState) :
    handleLetterKeys "d" p = Effect.preventDefault ::
      (if p.live then []
       else
         (match p.video.duration with
          | none => []
          | some d =>
            if d ≠ 0 ∧ p.video.currentTime + 5 < d then
              [Effect.seek (p.video.currentTime + 5) false]
            else if d ≠ 0 then [Effect.seek (d - 1) false]
            else []) ++ [Effect.setAutoHide]) := by
  unfold handleLetterKeys
  rw [show jsToLower "d" = "d" from by decide]
  rw [if_neg (by decide : ¬("d" : String) = "a")]
  exact if_pos rfl

/-- C3 counterexample: an eligible left-arrow keydown at currentTime 3 with
`live` false makes the dispatcher pass −2 — a negative time — to
`player.seek`. -/
theorem leftArrow_negative_seek :
    doHotKey ⟨"ArrowLeft", 37, false, false, 0⟩ sampleActive samplePlayer =
      [Effect.preventDefault, Effect.seek (-2) false, Effect.setAutoHide] ∧
    (-2 : ℚ) < 0 := by
  constructor
  · have hg : isTypingTarget sampleActive = false := by decide
    simp [doHotKey, hg, samplePlayer]
    norm_num
  · norm_num

/-- C3 (amended): seek clamping is asymmetric, not uniform.  The `'a'` rule
never passes a negative time — at currentTime < 5 it issues an absolute seek
to 0; the `'d'` rule never passes a time exceeding the known duration; but
both arrow-key rules pass `currentTime ∓ 5` unclamped (left arrow
`currentTime − 5`, right arrow `currentTime + 5`), so a left arrow at
currentTime < 5 passes a negative time to `player.seek`. -/
theorem seek_clamp_asymmetry (p : PlayerState) (d : ℚ)
    (hd : p.video.duration = some d) (e : KeyEvent) (a : ActiveElement)
    (hfoc : p.focus = true) (hguard : isTypingTarget a = false)
    (hctrl : e.ctrlKey = false) (hshift : e.shiftKey = false)
    (hlive : p.live = false) :
    allNonneg (seekTimes (handleLetterKeys "a" p)) = true ∧
    (p.video.currentTime < 5 → handleLetterKeys "a" p =
      [Effect.preventDefault, Effect.seek 0 false, Effect.setAutoHide]) ∧
    allLe (seekTimes (handleLetterKeys "d" p)) d = true ∧
    (e.keyCode = 37 → doHotKey e a p =
      [Effect.preventDefault, Effect.seek (p.video.currentTime - 5) false,
       Effect.setAutoHide]) ∧
    (e.keyCode = 39 → doHotKey e a p =
      [Effect.preventDefault, Effect.seek (p.video.currentTime + 5) false,
       Effect.setAutoHide]) := by
  refine ⟨?_, fun hlt => ?_, ?_, fun h37 => ?_, fun h39 => ?_⟩
  · rw [handleLetterKeys_key_a, hlive]
    rw [if_neg (by decide : ¬(false = true))]
    by_cases hct : p.video.currentTime ≥ 5
    · rw [if_pos hct]
      simp [seekTimes, allNonneg]
      linarith
    · rw [if_neg hct]
      simp [seekTimes, allNonneg]
  · rw [handleLetterKeys_key_a, hlive]
    rw [if_neg (by decide : ¬(false = true))]
    rw [if_neg (not_le.mpr hlt)]
    rfl
  · rw [handleLetterKeys_key_d, hlive, hd]
    rw [if_neg (by decide : ¬(false = true))]
    dsimp only
    by_cases h1 : d ≠ 0 ∧ p.video.currentTime + 5 < d
    · rw [if_pos h1]
      simp [seekTimes, allLe]
      linarith [h1.2]
    · rw [if_neg h1]
      by_cases h2 : d ≠ 0
      · rw [if_pos h2]
        simp [seekTimes, allLe]
      · rw [if_neg h2]
        simp [seekTimes, allLe]
  · simp [doHotKey, hfoc, hguard, hctrl, hshift, h37, hlive]
  · simp [doHotKey, hfoc, hguard, hctrl, hshift, h39, hlive]

theorem seek_clamp_asymmetry_witness :
    allNonneg (seekTimes (handleLetterKeys "a" samplePlayer)) = true ∧
    handleLetterKeys "a" samplePlayer =
      [Effect.preventDefault, Effect.seek 0 false, Effect.setAutoHide] ∧
    allLe (seekTimes (handleLetterKeys "d" samplePlayer)) 100 = true ∧
    doHotKey ⟨"ArrowLeft", 37, false, false, 0⟩ sampleActive samplePlayer =
      [Effect.preventDefault,
       Effect.seek (samplePlayer.video.currentTime - 5) false,
       Effect.setAutoHide] ∧
    doHotKey ⟨"ArrowRight", 39, false, false, 0⟩ sampleActive samplePlayer =
      [Effect.preventDefault,
       Effect.seek (samplePlayer.video.currentTime + 5) false,
       Effect.setAutoHide] :=
  ⟨(seek_clamp_asymmetry samplePlayer 100 rfl ⟨"ArrowLeft", 37, false, false, 0⟩
      sampleActive rfl (by decide) rfl rfl rfl).1,
   (seek_clamp_asymmetry samplePlayer 100 rfl ⟨"ArrowLeft", 37, false, false, 0⟩
      sampleActive rfl (by decide) rfl rfl rfl).2.1 (by norm_num [samplePlayer]),
   (seek_clamp_asymmetry samplePlayer 100 rfl ⟨"ArrowLeft", 37, false, false, 0⟩
      sampleActive rfl (by decide) rfl rfl rfl).2.2.1,
   (seek_clamp_asymmetry samplePlayer 100 rfl ⟨"ArrowLeft", 37, false, false, 0⟩
      sampleActive rfl (by decide) rfl rfl rfl).2.2.2.1 rfl,
   (seek_clamp_asymmetry samplePlayer 100 rfl ⟨"ArrowRight", 39, false, false, 0⟩
      sampleActive rfl (by decide) rfl rfl rfl).2.2.2.2 rfl⟩

end SeekClamping

section Screenshot

/-- Mathematical remainder on ℚ (`a mod b` with `b > 0`), used to state the
spec's timestamp formula. -/
def qMod (a b : ℚ) : ℚ :=
  a - b * (⌊a / b⌋ : ℚ)

/-- The filename the spec describes: `screenshot_HH-MM-SS.png` with
`HH = floor(t / 3600)`, `MM = floor((t mod 3600) / 60)`,
`SS = floor(t mod 60)`, each zero-padded to two digits. -/
def specScreenshotName (t : ℚ) : String :=
  "screenshot_" ++
    (padStart2 (toString ⌊t / 3600⌋) ++ "-" ++
     padStart2 (toString ⌊qMod t 3600 / 60⌋) ++ "-" ++
     padStart2 (toString ⌊qMod t 60⌋)) ++ ".png"

/-- For a nonnegative dividend and positive divisor, the JavaScript `%`
agrees with the mathematical remainder. -/
theorem jsMod_nonneg_eq_qMod (t b : ℚ) (ht : 0 ≤ t) (hb : 0 < b) :
    jsMod t b = qMod t b := by
  unfold jsMod qMod jsTrunc
  rw [if_pos (div_nonneg ht hb.le)]

/-- C8: for every capture-time `t ≥ 0`, `takeScreenshot` downloads a file
whose name is exactly the spec's `screenshot_HH-MM-SS.png` formula —
`HH = floor(t/3600)`, `MM = floor((t mod 3600)/60)`, `SS = floor(t mod 60)`,
each zero-padded to two digits — and emits a notice carrying the same
`HH-MM-SS` timestamp. -/
theorem screenshot_filename_format (t : ℚ) (ht : 0 ≤ t) (p : PlayerState)
    (hp : p.video.currentTime = t) :
    takeScreenshot p =
      [Effect.screenshot (specScreenshotName t),
       Effect.notice ("Screenshot: " ++ screenshotTimestamp t)] ∧
    "screenshot_" ++ screenshotTimestamp t ++ ".png" = specScreenshotName t := by
  have h36 : jsMod t 3600 = qMod t 3600 :=
    jsMod_nonneg_eq_qMod t 3600 ht (by norm_num)
  have h60 : jsMod t 60 = qMod t 60 :=
    jsMod_nonneg_eq_qMod t 60 ht (by norm_num)
  have hts : "screenshot_" ++ screenshotTimestamp t ++ ".png" =
      specScreenshotName t := by
    unfold screenshotTimestamp specScreenshotName
    rw [h36, h60]
  refine ⟨?_, hts⟩
  unfold takeScreenshot
  rw [hp]
  simp only [hts]

/-- Concrete capture state for Scenario F: `currentTime = 125.4`. -/
def shotPlayer : PlayerState :=
  ⟨⟨627 / 5, some 200, 1, false⟩, 1 / 2, false, true, true, false, false⟩

theorem screenshot_filename_format_witness :
    takeScreenshot shotPlayer =
      [Effect.screenshot "screenshot_00-02-05.png",
       Effect.notice "Screenshot: 00-02-05"] := by
  have h := (screenshot_filename_format (627 / 5) (by norm_num) shotPlayer rfl).1
  rw [h]
  have e2 : jsMod (627 / 5 : ℚ) 3600 = 627 / 5 := by
    unfold jsMod jsTrunc
    rw [if_pos (by norm_num : (0 : ℚ) ≤ 627 / 5 / 3600)]
    norm_num
  have e4 : jsMod (627 / 5 : ℚ) 60 = 27 / 5 := by
    unfold jsMod jsTrunc
    rw [if_pos (by norm_num : (0 : ℚ) ≤ 627 / 5 / 60)]
    norm_num
  have e2q : qMod (627 / 5 : ℚ) 3600 = 627 / 5 := by
    rw [← jsMod_nonneg_eq_qMod _ _ (by norm_num) (by norm_num)]
    exact e2
  have e4q : qMod (627 / 5 : ℚ) 60 = 27 / 5 := by
    rw [← jsMod_nonneg_eq_qMod _ _ (by norm_num) (by norm_num)]
    exact e4
  have hname : specScreenshotName (627 / 5) = "screenshot_00-02-05.png" := by
    unfold specScreenshotName
    rw [e2q, e4q]
    rw [show (⌊(627 / 5 : ℚ) / 3600⌋ : ℤ) = 0 from by norm_num]
    rw [show (⌊(627 / 5 : ℚ) / 60⌋ : ℤ) = 2 from by norm_num]
    rw [show (⌊(27 / 5 : ℚ)⌋ : ℤ) = 5 from by norm_num]
    decide
  have hstamp : screenshotTimestamp (627 / 5) = "00-02-05" := by
    unfold screenshotTimestamp
    rw [e2, e4]
    rw [show (⌊(627 / 5 : ℚ) / 3600⌋ : ℤ) = 0 from by norm_num]
    rw [show (⌊(627 / 5 : ℚ) / 60⌋ : ℤ) = 2 from by norm_num]
    rw [show (⌊(27 / 5 : ℚ)⌋ : ℤ) = 5 from by norm_num]
    decide
  rw [hname, hstamp]
  decide

end Screenshot

section PercentSeek

/-- `parseInt` of a digit case is at most 9. -/
theorem digitVal_le (s : String) : digitVal s ≤ 9 := by
  unfold digitVal
  split_ifs <;> norm_num

/-- When no modifier rule and no key-code case matches, the dispatcher falls
through to the letter-key switch. -/
theorem doHotKey_letter (e : KeyEvent) (a : ActiveElement) (p : PlayerState)
    (hfoc : p.focus = true) (hguard : isTypingTarget a = false)
    (hctrl : e.ctrlKey = false) (hshift : e.shiftKey = false)
    (h32 : e.keyCode ≠ 32) (h37 : e.keyCode ≠ 37) (h39 : e.keyCode ≠ 39)
    (h38 : e.keyCode ≠ 38) (h40 : e.keyCode ≠ 40) (h13 : e.keyCode ≠ 13) :
    doHotKey e a p = handleLetterKeys e.key p := by
  simp [doHotKey, hfoc, hguard, hctrl, hshift, h32, h37, h39, h38, h40, h13]

/-- The digit cases of the letter switch, characterized. -/
theorem handleLetterKeys_digit (key : String) (p : PlayerState)
    (hdig : isDigitKey (jsToLower key) = true) :
    handleLetterKeys key p = Effect.preventDefault ::
      (if p.live then []
       else seekToPercent p (digitVal (jsToLower key) * 10)) := by
  have ha : ¬(jsToLower key = "a") := fun h => by
    rw [h] at hdig; exact absurd hdig (by decide)
  have hd : ¬(jsToLower key = "d") := fun h => by
    rw [h] at hdig; exact absurd hdig (by decide)
  have hf : ¬(jsToLower key = "f") := fun h => by
    rw [h] at hdig; exact absurd hdig (by decide)
  have hw : ¬(jsToLower key = "w") := fun h => by
    rw [h] at hdig; exact absurd hdig (by decide)
  have hm : ¬(jsToLower key = "m") := fun h => by
    rw [h] at hdig; exact absurd hdig (by decide)
  have hpe : ¬(jsToLower key = "+" ∨ jsToLower key = "=") := by
    rintro (h | h) <;> (rw [h] at hdig; exact absurd hdig (by decide))
  have hmi : ¬(jsToLower key = "-") := fun h => by
    rw [h] at hdig; exact absurd hdig (by decide)
  unfold handleLetterKeys
  rw [if_neg ha, if_neg hd, if_neg hf, if_neg hw, if_neg hm, if_neg hpe,
    if_neg hmi, if_pos hdig]

/-- C5: an eligible plain digit-key event (label a digit `k`, key code
`48 + k`) with `live` false and a known positive duration `D` makes the
dispatcher seek to `(k·10)/100 · D` — the spec's `D · p / 100` with
`p = k·10` — with the user-initiated flag, and emit the notice
`Seek: {k·10}%`; the issued time lies in `[0, D]`.  With duration unknown
no seek and no notice are issued (only `preventDefault` fires). -/
theorem digit_seeks_percent (e : KeyEvent) (a : ActiveElement) (p : PlayerState)
    (hfoc : p.focus = true) (hguard : isTypingTarget a = false)
    (hctrl : e.ctrlKey = false) (hshift : e.shiftKey = false)
    (hdig : isDigitKey (jsToLower e.key) = true)
    (h32 : e.keyCode ≠ 32) (h37 : e.keyCode ≠ 37) (h39 : e.keyCode ≠ 39)
    (h38 : e.keyCode ≠ 38) (h40 : e.keyCode ≠ 40) (h13 : e.keyCode ≠ 13)
    (hlive : p.live = false) :
    (∀ D : ℚ, p.video.duration = some D → 0 < D →
      doHotKey e a p =
        [Effect.preventDefault,
         Effect.seek (((digitVal (jsToLower e.key) * 10 : ℕ) : ℚ) / 100 * D) true,
         Effect.notice ("Seek: " ++ toString (digitVal (jsToLower e.key) * 10) ++ "%")] ∧
      0 ≤ ((digitVal (jsToLower e.key) * 10 : ℕ) : ℚ) / 100 * D ∧
      ((digitVal (jsToLower e.key) * 10 : ℕ) : ℚ) / 100 * D ≤ D) ∧
    (p.video.duration = none → doHotKey e a p = [Effect.preventDefault]) := by
  have hred : doHotKey e a p = Effect.preventDefault ::
      (if p.live then []
       else seekToPercent p (digitVal (jsToLower e.key) * 10)) := by
    rw [doHotKey_letter e a p hfoc hguard hctrl hshift h32 h37 h39 h38 h40 h13,
      handleLetterKeys_digit e.key p hdig]
  rw [hlive] at hred
  rw [if_neg (by decide : ¬(false = true))] at hred
  constructor
  · intro D hD hDpos
    have hDne : ¬(D = 0) := ne_of_gt hDpos
    have hseek : seekToPercent p (digitVal (jsToLower e.key) * 10) =
        [Effect.seek (((digitVal (jsToLower e.key) * 10 : ℕ) : ℚ) / 100 * D) true,
         Effect.notice ("Seek: " ++ toString (digitVal (jsToLower e.key) * 10) ++ "%")] := by
      unfold seekToPercent
      rw [hD]
      dsimp only
      rw [if_neg hDne]
    have hle90 : ((digitVal (jsToLower e.key) * 10 : ℕ) : ℚ) ≤ 90 := by
      exact_mod_cast Nat.mul_le_mul_right 10 (digitVal_le (jsToLower e.key))
    have hfrac : ((digitVal (jsToLower e.key) * 10 : ℕ) : ℚ) / 100 ≤ 1 := by
      rw [div_le_one (by norm_num : (0 : ℚ) < 100)]
      linarith
    refine ⟨?_, ?_, ?_⟩
    · rw [hred, hseek]
    · exact mul_nonneg (by positivity) hDpos.le
    · calc ((digitVal (jsToLower e.key) * 10 : ℕ) : ℚ) / 100 * D ≤ 1 * D :=
            mul_le_mul_of_nonneg_right hfrac hDpos.le
        _ = D := one_mul D
  · intro hnone
    have hseek : seekToPercent p (digitVal (jsToLower e.key) * 10) = [] := by
      unfold seekToPercent
      rw [hnone]
    rw [hred, hseek]

/-- Scenario D state: `live = false`, `duration = 200`. -/
def seventyPlayer : PlayerState :=
  ⟨⟨10, some 200, 1, false⟩, 1 / 2, false, true, true, false, false⟩

theorem digit_seeks_percent_witness :
    doHotKey ⟨"7", 55, false, false, 0⟩ sampleActive seventyPlayer =
      [Effect.preventDefault, Effect.seek 140 true, Effect.notice "Seek: 70%"] := by
  have h := ((digit_seeks_percent ⟨"7", 55, false, false, 0⟩ sampleActive
      seventyPlayer rfl (by decide) rfl rfl (by decide) (by decide) (by decide)
      (by decide) (by decide) (by decide) (by decide) rfl).1 200 rfl
      (by norm_num)).1
  rw [h, show digitVal (jsToLower "7") = 7 from by decide]
  norm_num
  decide

end PercentSeek

end DPlayerHotkey
